import Mathlib

/-!
Verification of the ChatAICV backend (src/main.js).

The file shallowly embeds the pure logic of the single source file:
the startup sequence (`initialize`, here `initServer`, and the
`initialize().then(listen).catch(exit)` tail, here `startServer`), the
vector-store construction performed by `FaissStore.fromTexts`, the retrieval
wrapper `findRelevantExamples`, the prompt builder `preparePrompt`, and the
`POST /chat` handler (`chatHandler`).  External effects — the file system,
JSON parsing, the embedding provider, `similaritySearch`, and the chat
completion call — are modelled as explicit parameters (`Except` values or
functions) so that every control path of the JavaScript is represented.
-/

namespace ChatAICV

/-- One record of `cv_dataset.json`: a (question, answer) pair. -/
structure CVRecord where
  question : String
  answer : String
deriving DecidableEq, Inhabited

/-- A conversation turn `{role, content}`. -/
structure Turn where
  role : String
  content : String
deriving DecidableEq, Inhabited

/-- A vector-store document: the embedded page content paired with its
`metadata.id`, as stored by `FaissStore.fromTexts(texts, metadatas, embeddings)`
(src/main.js lines 42-46). -/
abbrev VectorStore := List (String × Nat)

/-- src/main.js lines 42-46: the texts are `${item.question} ${item.answer}`
per record, and the i-th text is paired with metadata `{ id: i }`
(`cvDataset.map((_, i) => ({ id: i }))`). -/
def vectorStoreDocs (cvDataset : List CVRecord) : VectorStore :=
  List.zip (cvDataset.map fun item => item.question ++ " " ++ item.answer)
    (List.range cvDataset.length)

/-- The module-level mutable globals of src/main.js lines 30-32:
`cvDataset`, `vectorStore`, `isInitialized`. -/
structure ServerState where
  cvDataset : List CVRecord
  vectorStore : Option VectorStore
  isInitialized : Bool
deriving DecidableEq

/-- Outcome of the external `vectorStore.similaritySearch` call:
either the documents it returns or a thrown error. -/
abbrev QueryOutcome := Except Unit (List (String × Nat))

/-- src/main.js lines 56-68 (`findRelevantExamples`): returns `[]` when the
store is not initialized or absent; on a successful search maps each result
back through `cvDataset[result.metadata.id]`; on a thrown search error
returns `[]`.  (`question` and `numExamples` are only forwarded to the
external search, whose outcome is the parameter `qo`.) -/
def findRelevantExamples (st : ServerState) (qo : QueryOutcome)
    (question : String) (numExamples : Nat) : List CVRecord :=
  if st.isInitialized = false ∨ st.vectorStore = none then []
  else
    match qo with
    | Except.error _ => []
    | Except.ok results => results.map fun r => st.cvDataset.getD r.2 default

/-- The fixed preamble of src/main.js line 72. -/
def promptPreamble : String := "Relevant information from Mathieu Vialatte's CV:\n\n"

/-- The fallback disclaimer of src/main.js line 80. -/
def fallbackSentence : String :=
  "No relevant examples could be found. Please answer to the best of your ability with general information about Mathieu Vialatte.\n\n"

/-- One retrieved example formatted as in src/main.js line 77. -/
def qaBlock (ex : CVRecord) : String :=
  "Q: " ++ ex.question ++ "\nA: " ++ ex.answer ++ "\n\n"

/-- src/main.js lines 71-85 (`preparePrompt`): preamble, then — if initialized —
one block per retrieved example, else the fallback sentence, then the final
question/answer suffix of line 83. -/
def preparePrompt (st : ServerState) (qo : QueryOutcome) (question : String) : String :=
  let prompt := promptPreamble
  let prompt :=
    if st.isInitialized then
      (findRelevantExamples st qo question 3).foldl (fun p ex => p ++ qaBlock ex) prompt
    else
      prompt ++ fallbackSentence
  prompt ++ ("Question: " ++ question ++ "\nAnswer:")

/-- Number of retrieved Q/A blocks appended by `preparePrompt`
(one per element of `relevantExamples`, src/main.js lines 76-78). -/
def promptBlockCount (st : ServerState) (qo : QueryOutcome) (question : String) : Nat :=
  if st.isInitialized then (findRelevantExamples st qo question 3).length else 0

/-- The fixed system instruction of src/main.js lines 96-100
(a template literal, indentation and trailing spaces included). -/
def systemInstruction : String :=
  "You are a virtual assistant specialized in answering questions about Mathieu Vialatte's CV. \n        Use only the information provided in the examples or in the question to answer. \n        If information is not available, clearly state so. \n        Focus on Mathieu's skills, experience, and achievements. \n        Respond concisely and professionally."

/-- The fixed 500 payload message of src/main.js line 128. -/
def chatErrorMessage : String := "Sorry, an error occurred while processing your request."

/-- src/main.js lines 95-103: the message sequence submitted to the completion
provider — system turn, then the caller-supplied history spread in order, then
one user turn carrying the composed prompt. -/
def fullConversation (conversationHistory : List Turn) (prompt : String) : List Turn :=
  ⟨"system", systemInstruction⟩ :: (conversationHistory ++ [⟨"user", prompt⟩])

/-- Observable outcome of one `POST /chat` request: HTTP status, the `response`
field, the `conversationHistory` field (absent from the 500 payload), and — as
a trace for specification purposes — the messages submitted to the provider. -/
structure ChatOutcome where
  status : Nat
  response : String
  conversationHistory : Option (List Turn)
  submitted : List Turn
deriving DecidableEq

/-- src/main.js lines 88-130 (the `app.post` handler).  The completion provider
is the parameter `complete`; `Except.error` models a thrown/rejected call
(lines 105-115, including a malformed response).  On success the reply is the
trimmed completion text (line 115) and the two new turns are pushed
(lines 119-120); on any failure the handler answers 500 with a fixed message
and no history field (lines 126-129). -/
def chatHandler (st : ServerState) (qo : QueryOutcome)
    (complete : List Turn → Except Unit String)
    (message : String) (conversationHistory : List Turn) : ChatOutcome :=
  match complete (fullConversation conversationHistory (preparePrompt st qo message)) with
  | Except.error _ =>
      ⟨500, chatErrorMessage, none,
        fullConversation conversationHistory (preparePrompt st qo message)⟩
  | Except.ok content =>
      ⟨200, content.trim,
        some (conversationHistory ++ [⟨"user", message⟩, ⟨"assistant", content.trim⟩]),
        fullConversation conversationHistory (preparePrompt st qo message)⟩

/-- Result of process startup: either the HTTP server is listening with the
final global state, or the process exited. -/
inductive StartupResult where
  | serving (st : ServerState)
  | aborted
deriving DecidableEq

/-- src/main.js lines 35-53 (the `initialize` function): `loadResult` models
`fs.readFile` plus `JSON.parse` (an error models a throw), `buildOk` models
whether `FaissStore.fromTexts` succeeds.  On success the globals are set and
`isInitialized` flips true; any error is rethrown to the caller. -/
def initServer (loadResult : Except Unit (List CVRecord)) (buildOk : Bool) :
    Except Unit ServerState :=
  match loadResult with
  | Except.error e => Except.error e
  | Except.ok cvDataset =>
      if buildOk then
        Except.ok ⟨cvDataset, some (vectorStoreDocs cvDataset), true⟩
      else Except.error ()

/-- src/main.js lines 141-150: `initialize().then(() => app.listen(...))
.catch(error => process.exit(1))` — listening starts only on success,
any startup error aborts the process. -/
def startServer (loadResult : Except Unit (List CVRecord)) (buildOk : Bool) :
    StartupResult :=
  match initServer loadResult buildOk with
  | Except.ok st => StartupResult.serving st
  | Except.error _ => StartupResult.aborted

/-- A sample dataset record (from the end-to-end scenario of the spec). -/
def mathieuRecord : CVRecord :=
  ⟨"What languages does Mathieu know?", "Python, JavaScript, Go."⟩

/-- A ready post-startup state over the one-record sample dataset. -/
def readyState : ServerState :=
  ⟨[mathieuRecord], some (vectorStoreDocs [mathieuRecord]), true⟩

/-- The pre-startup state (globals unset, flag false). -/
def unreadyState : ServerState := ⟨[], none, false⟩

/-- A completion provider that always succeeds with a fixed reply. -/
def okComplete : List Turn → Except Unit String := fun _ => Except.ok " Hello! "

/-- A completion provider whose call always fails. -/
def errComplete : List Turn → Except Unit String := fun _ => Except.error ()

/- ### Helper lemmas -/

theorem foldl_qaBlock_append (l : List CVRecord) :
    ∀ a b : String,
      l.foldl (fun p ex => p ++ qaBlock ex) (a ++ b)
        = a ++ l.foldl (fun p ex => p ++ qaBlock ex) b := by
  induction l with
  | nil => intro a b; rfl
  | cons x xs ih =>
      intro a b
      simp only [List.foldl_cons]
      rw [String.append_assoc]
      exact ih a (b ++ qaBlock x)

theorem append_ne_empty_left (a b : String) (h : a.data ≠ []) : a ++ b ≠ "" := by
  intro he
  have hd : (a ++ b).data = ("" : String).data := congrArg String.data he
  rw [String.data_append] at hd
  exact h (List.append_eq_nil.mp hd).1

theorem findRelevantExamples_not_ready_nil (st : ServerState) (qo : QueryOutcome)
    (question : String) (numExamples : Nat)
    (h : st.isInitialized = false ∨ st.vectorStore = none) :
    findRelevantExamples st qo question numExamples = [] := by
  unfold findRelevantExamples
  rw [if_pos h]

theorem findRelevantExamples_error_nil (st : ServerState) (question : String)
    (numExamples : Nat) :
    findRelevantExamples st (Except.error ()) question numExamples = [] := by
  unfold findRelevantExamples
  split
  · rfl
  · rfl

theorem preparePrompt_of_retrieval_nil (st : ServerState) (qo : QueryOutcome)
    (question : String) (hinit : st.isInitialized = true)
    (hempty : findRelevantExamples st qo question 3 = []) :
    preparePrompt st qo question
      = promptPreamble ++ ("Question: " ++ question ++ "\nAnswer:") := by
  unfold preparePrompt
  simp only [hinit, if_true, hempty, List.foldl_nil]

/- ### Claims -/

/-- C1: on every successful call of the `POST /chat` handler the returned
conversation history equals the caller-supplied history with exactly two turns
appended — first `{role: user, content: userMessage}` (the raw message, not the
composed prompt), then `{role: assistant, content: reply}` — and nothing else
is changed, reordered, or removed. -/
theorem chatHandler_success_appends_two_turns (st : ServerState) (qo : QueryOutcome)
    (complete : List Turn → Except Unit String) (message raw : String)
    (history : List Turn)
    (h : complete (fullConversation history (preparePrompt st qo message))
        = Except.ok raw) :
    (chatHandler st qo complete message history).status = 200 ∧
    (chatHandler st qo complete message history).conversationHistory
      = some (history ++ [⟨"user", message⟩, ⟨"assistant", raw.trim⟩]) ∧
    (chatHandler st qo complete message history).response = raw.trim := by
  unfold chatHandler
  rw [h]
  exact ⟨rfl, rfl, rfl⟩

/-- Witness for C1 at a concrete state, message, history and provider. -/
theorem chatHandler_success_appends_two_turns_witness :
    okComplete (fullConversation [⟨"user", "hey"⟩]
        (preparePrompt readyState (Except.ok []) "Hi")) = Except.ok " Hello! " ∧
    ((chatHandler readyState (Except.ok []) okComplete "Hi" [⟨"user", "hey"⟩]).status = 200 ∧
      (chatHandler readyState (Except.ok []) okComplete "Hi" [⟨"user", "hey"⟩]).conversationHistory
        = some ([⟨"user", "hey"⟩] ++ [⟨"user", "Hi"⟩, ⟨"assistant", (" Hello! " : String).trim⟩]) ∧
      (chatHandler readyState (Except.ok []) okComplete "Hi" [⟨"user", "hey"⟩]).response
        = (" Hello! " : String).trim) :=
  ⟨rfl, chatHandler_success_appends_two_turns readyState (Except.ok []) okComplete
    "Hi" " Hello! " [⟨"user", "hey"⟩] rfl⟩

/-- C2: when the completion-provider call fails, the handler returns the fixed
generic 500 message and no history field at all — the caller-supplied history
is not extended by any turn or partial pair. -/
theorem chatHandler_failure_no_history (st : ServerState) (qo : QueryOutcome)
    (complete : List Turn → Except Unit String) (message : String)
    (history : List Turn)
    (h : complete (fullConversation history (preparePrompt st qo message))
        = Except.error ()) :
    (chatHandler st qo complete message history).status = 500 ∧
    (chatHandler st qo complete message history).response = chatErrorMessage ∧
    (chatHandler st qo complete message history).conversationHistory = none := by
  unfold chatHandler
  rw [h]
  exact ⟨rfl, rfl, rfl⟩

/-- Witness for C2 at a concrete state, message, history and failing provider. -/
theorem chatHandler_failure_no_history_witness :
    errComplete (fullConversation [⟨"user", "hey"⟩]
        (preparePrompt readyState (Except.ok []) "Hi")) = Except.error () ∧
    ((chatHandler readyState (Except.ok []) errComplete "Hi" [⟨"user", "hey"⟩]).status = 500 ∧
      (chatHandler readyState (Except.ok []) errComplete "Hi" [⟨"user", "hey"⟩]).response
        = chatErrorMessage ∧
      (chatHandler readyState (Except.ok []) errComplete "Hi" [⟨"user", "hey"⟩]).conversationHistory
        = none) :=
  ⟨rfl, chatHandler_failure_no_history readyState (Except.ok []) errComplete
    "Hi" [⟨"user", "hey"⟩] rfl⟩

set_option maxRecDepth 20000 in
/-- C3 counterexample: at a concrete ready state (Readiness Flag true, store
built) with a query-time error, the composed prompt does not contain the
fallback disclaimer — the error is not surfaced as the "no relevant examples
found" sentence, contrary to the claim. -/
theorem queryError_prompt_lacks_disclaimer_cex :
    readyState.isInitialized = true ∧
    ¬ fallbackSentence.data <:+: (preparePrompt readyState (Except.error ()) "Hi").data := by
  exact ⟨rfl, by decide⟩

/-- C3 (amended): a query-time error in the Similarity Index (flag true) is
recovered locally as an empty retrieval result, and the pipeline continues on a
prompt that is exactly the preamble followed by the question suffix — zero
retrieved blocks and no fallback disclaimer. -/
theorem queryError_recovered_without_disclaimer (st : ServerState) (question : String)
    (hinit : st.isInitialized = true) :
    findRelevantExamples st (Except.error ()) question 3 = [] ∧
    preparePrompt st (Except.error ()) question
      = promptPreamble ++ ("Question: " ++ question ++ "\nAnswer:") ∧
    promptBlockCount st (Except.error ()) question = 0 := by
  have hempty := findRelevantExamples_error_nil st question 3
  refine ⟨hempty, preparePrompt_of_retrieval_nil st _ question hinit hempty, ?_⟩
  simp [promptBlockCount, hinit, hempty]

/-- Witness for the amended C3 at a concrete ready state and question. -/
theorem queryError_recovered_without_disclaimer_witness :
    readyState.isInitialized = true ∧
    (findRelevantExamples readyState (Except.error ()) "Hi" 3 = [] ∧
      preparePrompt readyState (Except.error ()) "Hi"
        = promptPreamble ++ ("Question: " ++ "Hi" ++ "\nAnswer:") ∧
      promptBlockCount readyState (Except.error ()) "Hi" = 0) :=
  ⟨rfl, queryError_recovered_without_disclaimer readyState "Hi" rfl⟩

/-- C4: `findRelevantExamples` returns the empty sequence — rather than
propagating an error — whenever the Index was never successfully built
(flag false or no vector store) or the query itself errors. -/
theorem findRelevantExamples_failure_policy (st : ServerState) (qo : QueryOutcome)
    (question : String) (numExamples : Nat)
    (h : st.isInitialized = false ∨ st.vectorStore = none ∨ qo = Except.error ()) :
    findRelevantExamples st qo question numExamples = [] := by
  rcases h with h | h | h
  · exact findRelevantExamples_not_ready_nil st qo question numExamples (Or.inl h)
  · exact findRelevantExamples_not_ready_nil st qo question numExamples (Or.inr h)
  · rw [h]
    exact findRelevantExamples_error_nil st question numExamples

/-- Witness for C4 at a concrete unready state, query and count. -/
theorem findRelevantExamples_failure_policy_witness :
    (unreadyState.isInitialized = false ∨ unreadyState.vectorStore = none ∨
      (Except.ok [("t", 0)] : QueryOutcome) = Except.error ()) ∧
    findRelevantExamples unreadyState (Except.ok [("t", 0)]) "Hi" 3 = [] :=
  ⟨Or.inl rfl,
    findRelevantExamples_failure_policy unreadyState (Except.ok [("t", 0)]) "Hi" 3 (Or.inl rfl)⟩

/-- C5: for every question, Index state and query result, the composed prompt
is non-empty, begins with the fixed preamble, and ends with the literal suffix
`"Question: {question}\nAnswer:"` (stated as the decomposition
`prompt = preamble ++ mid ++ suffix`). -/
theorem preparePrompt_preamble_and_suffix (st : ServerState) (qo : QueryOutcome)
    (question : String) :
    (∃ mid : String,
      preparePrompt st qo question
        = promptPreamble ++ (mid ++ ("Question: " ++ question ++ "\nAnswer:"))) ∧
    preparePrompt st qo question ≠ "" := by
  have hdec : ∃ mid : String,
      preparePrompt st qo question
        = promptPreamble ++ (mid ++ ("Question: " ++ question ++ "\nAnswer:")) := by
    unfold preparePrompt
    cases hinit : st.isInitialized with
    | false =>
        refine ⟨fallbackSentence, ?_⟩
        simp only [Bool.false_eq_true, if_false]
        rw [String.append_assoc]
    | true =>
        refine ⟨(findRelevantExamples st qo question 3).foldl
          (fun p ex => p ++ qaBlock ex) "", ?_⟩
        simp only [if_true]
        have hfold : (findRelevantExamples st qo question 3).foldl
            (fun p ex => p ++ qaBlock ex) promptPreamble
            = promptPreamble ++ (findRelevantExamples st qo question 3).foldl
                (fun p ex => p ++ qaBlock ex) "" := by
          conv_lhs => rw [← String.append_empty promptPreamble]
          exact foldl_qaBlock_append _ promptPreamble ""
        rw [hfold]
        simp only [String.append_assoc]
  refine ⟨hdec, ?_⟩
  obtain ⟨mid, hm⟩ := hdec
  rw [hm]
  apply append_ne_empty_left
  decide

/-- C6: when the Index is not ready, the composed prompt contains the fallback
disclaimer (it is exactly preamble, disclaimer, question suffix) and contains
zero retrieved Q/A blocks. -/
theorem preparePrompt_not_ready_disclaimer (st : ServerState) (qo : QueryOutcome)
    (question : String) (h : st.isInitialized = false) :
    preparePrompt st qo question
      = promptPreamble ++ (fallbackSentence ++ ("Question: " ++ question ++ "\nAnswer:")) ∧
    fallbackSentence.data <:+: (preparePrompt st qo question).data ∧
    promptBlockCount st qo question = 0 := by
  have heq : preparePrompt st qo question
      = promptPreamble ++ (fallbackSentence ++ ("Question: " ++ question ++ "\nAnswer:")) := by
    unfold preparePrompt
    simp only [h, Bool.false_eq_true, if_false]
    rw [String.append_assoc]
  refine ⟨heq, ?_, ?_⟩
  · refine ⟨promptPreamble.data, ("Question: " ++ question ++ "\nAnswer:").data, ?_⟩
    rw [heq]
    simp [String.data_append]
  · simp [promptBlockCount, h]

/-- Witness for C6 at the concrete pre-startup state and a concrete question. -/
theorem preparePrompt_not_ready_disclaimer_witness :
    unreadyState.isInitialized = false ∧
    (preparePrompt unreadyState (Except.ok []) "Hi"
        = promptPreamble ++ (fallbackSentence ++ ("Question: " ++ "Hi" ++ "\nAnswer:")) ∧
      fallbackSentence.data <:+: (preparePrompt unreadyState (Except.ok []) "Hi").data ∧
      promptBlockCount unreadyState (Except.ok []) "Hi" = 0) :=
  ⟨rfl, preparePrompt_not_ready_disclaimer unreadyState (Except.ok []) "Hi" rfl⟩

/-- C10: when the flag is true but retrieval returns the empty sequence (as on
any query-time error), the composed prompt is exactly the preamble followed
immediately by `"Question: {question}\nAnswer:"` — no retrieved block and no
fallback disclaimer. -/
theorem preparePrompt_ready_empty_retrieval (st : ServerState) (qo : QueryOutcome)
    (question : String) (hinit : st.isInitialized = true)
    (hempty : findRelevantExamples st qo question 3 = []) :
    preparePrompt st qo question
      = promptPreamble ++ ("Question: " ++ question ++ "\nAnswer:") ∧
    promptBlockCount st qo question = 0 := by
  refine ⟨preparePrompt_of_retrieval_nil st qo question hinit hempty, ?_⟩
  simp [promptBlockCount, hinit, hempty]

/-- Witness for C10 at a concrete ready state with an empty search result. -/
theorem preparePrompt_ready_empty_retrieval_witness :
    readyState.isInitialized = true ∧
    findRelevantExamples readyState (Except.ok []) "Hi" 3 = [] ∧
    (preparePrompt readyState (Except.ok []) "Hi"
        = promptPreamble ++ ("Question: " ++ "Hi" ++ "\nAnswer:") ∧
      promptBlockCount readyState (Except.ok []) "Hi" = 0) :=
  ⟨rfl, rfl, preparePrompt_ready_empty_retrieval readyState (Except.ok []) "Hi" rfl rfl⟩

/-- C7: for every user message and caller-supplied history (and any provider
and server state), the message sequence submitted to the completion provider is
exactly one fixed system turn, then all turns of the history in order, then one
user turn whose content is the composed prompt — `history.length + 2` turns in
total, nothing inserted, dropped or reordered. -/
theorem chatHandler_submitted_messages (st : ServerState) (qo : QueryOutcome)
    (complete : List Turn → Except Unit String) (message : String)
    (history : List Turn) :
    (chatHandler st qo complete message history).submitted
      = ⟨"system", systemInstruction⟩
          :: (history ++ [⟨"user", preparePrompt st qo message⟩]) ∧
    (chatHandler st qo complete message history).submitted.length
      = history.length + 2 := by
  have hsub : (chatHandler st qo complete message history).submitted
      = fullConversation history (preparePrompt st qo message) := by
    unfold chatHandler
    cases hc : complete (fullConversation history (preparePrompt st qo message)) <;> rfl
  rw [hsub]
  refine ⟨rfl, ?_⟩
  simp [fullConversation]

/-- C8: the vector store built at startup pairs the i-th embedded text with
metadata id i, so ids are dense, 0-based, in load order (`map snd = range`),
and for every stored document, dereferencing its id into the Corpus
(`cvDataset[id]`) yields exactly the record whose concatenated
question+answer text was embedded — with no index translation. -/
theorem vectorStore_id_dereference (cvDataset : List CVRecord) (d : String × Nat)
    (h : d ∈ vectorStoreDocs cvDataset) :
    d.2 < cvDataset.length ∧
    d.1 = (cvDataset.getD d.2 default).question ++ " "
            ++ (cvDataset.getD d.2 default).answer ∧
    (vectorStoreDocs cvDataset).map Prod.snd = List.range cvDataset.length := by
  have hlen : (cvDataset.map fun item => item.question ++ " " ++ item.answer).length
      = cvDataset.length := List.length_map _ _
  have hmain : d.2 < cvDataset.length ∧
      d.1 = (cvDataset.getD d.2 default).question ++ " "
              ++ (cvDataset.getD d.2 default).answer := by
    rw [List.mem_iff_getElem] at h
    obtain ⟨i, hi, hget⟩ := h
    have hi₁ : i < (cvDataset.map fun item =>
        item.question ++ " " ++ item.answer).length := by
      simp only [vectorStoreDocs, List.length_zip, hlen, List.length_range,
        Nat.min_self] at hi
      omega
    have hi₂ : i < (List.range cvDataset.length).length := by
      simp only [List.length_range]
      omega
    have hin : i < cvDataset.length := by
      simp only [vectorStoreDocs, List.length_zip, hlen, List.length_range,
        Nat.min_self] at hi
      omega
    have hzip : (vectorStoreDocs cvDataset)[i]
        = ((cvDataset.map fun item => item.question ++ " " ++ item.answer)[i],
            (List.range cvDataset.length)[i]) := List.getElem_zip ..
    rw [hzip] at hget
    have hrange : (List.range cvDataset.length)[i] = i := List.getElem_range ..
    have htext : (cvDataset.map fun item =>
        item.question ++ " " ++ item.answer)[i]
        = cvDataset[i].question ++ " " ++ cvDataset[i].answer := by
      simp [List.getElem_map]
    have hd2 : d.2 = i := by rw [← hget, hrange]
    have hd1 : d.1 = cvDataset[i].question ++ " " ++ cvDataset[i].answer := by
      rw [← hget, htext]
    subst hd2
    refine ⟨hin, ?_⟩
    rw [List.getD_eq_getElem cvDataset default hin]
    exact hd1
  refine ⟨hmain.1, hmain.2, ?_⟩
  exact List.map_snd_zip _ _ (by rw [hlen, List.length_range])

/-- Witness for C8 on the one-record sample corpus: the single stored document
carries id 0 and its text is the concatenation of the record's fields. -/
theorem vectorStore_id_dereference_witness :
    (("What languages does Mathieu know? Python, JavaScript, Go.", 0)
        ∈ vectorStoreDocs [mathieuRecord]) ∧
    ((("What languages does Mathieu know? Python, JavaScript, Go.", 0) : String × Nat).2
        < ([mathieuRecord] : List CVRecord).length ∧
      (("What languages does Mathieu know? Python, JavaScript, Go.", 0) : String × Nat).1
        = (([mathieuRecord] : List CVRecord).getD 0 default).question ++ " "
            ++ (([mathieuRecord] : List CVRecord).getD 0 default).answer ∧
      (vectorStoreDocs [mathieuRecord]).map Prod.snd
        = List.range ([mathieuRecord] : List CVRecord).length) :=
  ⟨by decide,
    vectorStore_id_dereference [mathieuRecord]
      ("What languages does Mathieu know? Python, JavaScript, Go.", 0) (by decide)⟩

/-- C9: the listen step is reached only when corpus load and index build both
succeed — every reachable serving state has the Readiness Flag true (and carries
the loaded corpus and the store built from it) — and a failure of either
startup step aborts the process instead of serving. -/
theorem startServer_ready_gate (loadResult : Except Unit (List CVRecord))
    (buildOk : Bool) :
    (∀ st : ServerState, startServer loadResult buildOk = StartupResult.serving st →
        st.isInitialized = true ∧ buildOk = true ∧
        ∃ ds : List CVRecord, loadResult = Except.ok ds ∧
          st.cvDataset = ds ∧ st.vectorStore = some (vectorStoreDocs ds)) ∧
    ((loadResult = Except.error () ∨ buildOk = false) →
        startServer loadResult buildOk = StartupResult.aborted) := by
  unfold startServer initServer
  cases loadResult with
  | error e =>
      refine ⟨fun st hst => ?_, fun _ => rfl⟩
      cases hst
  | ok ds =>
      cases buildOk with
      | false =>
          refine ⟨fun st hst => ?_, fun _ => rfl⟩
          simp at hst
      | true =>
          refine ⟨fun st hst => ?_, fun hbad => ?_⟩
          · simp only [if_true] at hst
            cases hst
            exact ⟨rfl, rfl, ds, rfl, rfl, rfl⟩
          · rcases hbad with hbad | hbad <;> cases hbad

/-- Witness for C9: a successful startup serves with the flag true, and a load
failure (or build failure) aborts. -/
theorem startServer_ready_gate_witness :
    startServer (Except.ok [mathieuRecord]) true = StartupResult.serving readyState ∧
    (readyState.isInitialized = true ∧ true = true ∧
      ∃ ds : List CVRecord,
        (Except.ok [mathieuRecord] : Except Unit (List CVRecord)) = Except.ok ds ∧
        readyState.cvDataset = ds ∧ readyState.vectorStore = some (vectorStoreDocs ds)) ∧
    startServer (Except.error ()) true = StartupResult.aborted ∧
    startServer (Except.ok [mathieuRecord]) false = StartupResult.aborted :=
  ⟨rfl,
    (startServer_ready_gate (Except.ok [mathieuRecord]) true).1 readyState rfl,
    (startServer_ready_gate (Except.error ()) true).2 (Or.inl rfl),
    (startServer_ready_gate (Except.ok [mathieuRecord]) false).2 (Or.inr rfl)⟩

end ChatAICV
